import Mathlib

/-!
Verification development for `pkgbld/release.py` of the Package-Builder
repository.

The single source file `src/pkgbld/release.py` defines one function,
`release(repo_name, pkg_name, version, local=False, dryrun=False,
channels=None)`, a linear orchestration of shell invocations.  We embed it
shallowly as a function from an environment (the facts the procedure reads
from the outside world: current directory, home directory, environment
variable, and the success/failure of each external operation) and the
Python argument values to a pair of
  * the list of observable effects the procedure performs, in order, and
  * the final outcome (normal return, or a raised exception).

The helper module `pkgbld.utils` (functions `os_call` and `file_revision`)
is part of this repository but is not present under `src/`; its behaviour
is modelled from the spec where indicated.
-/

/-- Observable side effects performed by `release`, in program order. -/
inductive Effect where
  | print (s : String)
  | rmtree (path : String)
  | mkdir (path : String)
  | chdir (path : String)
  | copytree (src dst : String) (ignore : List String)
  | osCall (cmd : String) (ignoreError : Bool)
  | fileRevision (filename pattern replacement : String)
  deriving DecidableEq, Repr

/-- Exceptions the embedded procedure can raise. -/
inductive PyExn where
  | valueError (msg : String)
  | osCallError (cmd : String)
  | copytreeError (src dst : String)
  | fileRevisionError (filename : String)
  deriving DecidableEq, Repr

/-- Python values that may be passed for the `repo_name`, `pkg_name`,
`version`, `local` and `dryrun` parameters: a string, a boolean, or some
other object (modelled by an integer), enough to express the
`isinstance` checks of `release.py` lines 82-106. -/
inductive PyVal where
  | str (s : String)
  | bool (b : Bool)
  | int (n : Int)
  | none
  deriving DecidableEq, Repr

/-- Python values relevant for the `channels` parameter: `None` (the
default), a list of strings, or a plain string (which Python would
iterate character by character in the loop at line 173). -/
inductive ChannelsArg where
  | none
  | list (xs : List String)
  | str (s : String)
  deriving DecidableEq, Repr

def PyVal.asStr : PyVal → Option String
  | .str s => some s
  | _ => Option.none

def PyVal.asBool : PyVal → Option Bool
  | .bool b => some b
  | _ => Option.none

/-- Rendering of the `channels` value by `'{}'.format(channels)`
(line 113): Python `str()` of `None`, of a list of strings, or of a
string. -/
def ChannelsArg.pyStr : ChannelsArg → String
  | .none => "None"
  | .str s => s
  | .list xs => "[" ++ String.intercalate ", " (xs.map (fun x => "'" ++ x ++ "'")) ++ "]"

/-- Whether a string starts with the path separator `/`, as tested by
`posixpath.join` on each later component. -/
def startsWithSlash (s : String) : Bool :=
  match s.data with
  | c :: _ => c = '/'
  | [] => false

/-- Whether a string ends with the path separator `/`. -/
def endsWithSlash (s : String) : Bool :=
  match s.data.getLast? with
  | some c => c = '/'
  | Option.none => false

/-- Shallow embedding of `os.path.join(a, b)` on POSIX: if `b` is
absolute it replaces everything so far; otherwise it is appended with a
separator unless one is already present. -/
def osPathJoin2 (a b : String) : String :=
  if startsWithSlash b then b
  else if a.data.isEmpty || endsWithSlash a then a ++ b
  else a ++ "/" ++ b

/-- Python `str.endswith`, used at line 92 (`cwd.endswith(repo_name)`). -/
def pyEndsWith (s suffix : String) : Bool :=
  List.isSuffixOf suffix.data s.data

/-- Python `str.startswith`. -/
def pyStartsWith (s pre : String) : Bool :=
  List.isPrefixOf pre.data s.data

/-- Split a character list at every occurrence of `sep` (the separator
characters are dropped); always returns at least one (possibly empty)
group. -/
def splitOnChar (sep : Char) : List Char → List (List Char)
  | [] => [[]]
  | c :: cs =>
    let rest := splitOnChar sep cs
    if c = sep then [] :: rest
    else
      match rest with
      | g :: gs => (c :: g) :: gs
      | [] => [[c]]

/-- The language of the regular expression `[0-9]+\.[0-9]+\.[0-9]+` over
a whole character list: exactly three nonempty all-digit groups
separated by literal dots. -/
def isVersionCore (cs : List Char) : Bool :=
  match splitOnChar '.' cs with
  | [a, b, c] =>
      !a.isEmpty && a.all Char.isDigit &&
      !b.isEmpty && b.all Char.isDigit &&
      !c.isEmpty && c.all Char.isDigit
  | _ => false

/-- Shallow embedding of `re.match(r'^[0-9]+\.[0-9]+\.[0-9]+$', version)
is not None` (release.py lines 103-104).  Python's `re.match` anchors at
the start of the string, and the `$` metacharacter (without
`re.MULTILINE`) matches at the end of the string OR just before a single
newline at the end of the string; so the pattern accepts `D+.D+.D+`
optionally followed by one trailing `'\n'`. -/
def pyMatchVersion (s : String) : Bool :=
  isVersionCore s.data ||
    (match s.data.getLast? with
     | some c => c = '\n' && isVersionCore s.data.dropLast
     | Option.none => false)

/-- The acceptance condition as the spec words it: the WHOLE version
string matches `^[0-9]+\.[0-9]+\.[0-9]+$` (a full-string match consuming
every character).  Stated for comparison with `pyMatchVersion`, the
condition the code actually tests. -/
def specVersionFullMatch (s : String) : Bool :=
  isVersionCore s.data

/-- The facts `release` reads from its environment: home directory,
`CONDA_TOKEN` environment variable, current working directory, which
relative paths are directories, whether the fixed working directory
pre-exists, and the success or failure of each external operation. -/
structure Env where
  homeDir : String
  condaToken : Option String
  cwd : String
  cwdIsdir : String → Bool
  workingDirExists : Bool
  copytreeOk : Bool
  osCallOk : String → Bool
  fileRevisionOk : String → Bool
  asctime1 : String
  asctime2 : String

/-- The arguments of one `release(...)` call, as Python values. -/
structure Args where
  repo_name : PyVal
  pkg_name : PyVal
  version : PyVal
  lokal : PyVal
  dryrun : PyVal
  channels : ChannelsArg

/-- `GITHUB_URL` constant (release.py line 16). -/
def GITHUB_URL : String := "https://github.com/PSLmodels"

/-- `ANACONDA_USER` constant (line 17). -/
def ANACONDA_USER : String := "pslmodels"

/-- `ANACONDA_CHANNEL` constant (line 18). -/
def ANACONDA_CHANNEL : String := ANACONDA_USER

/-- `ANACONDA_TOKEN_FILE` (lines 20-23): the result of
`os.path.join(HOME_DIR, '.' + ANACONDA_USER + '_anaconda_token')`. -/
def anacondaTokenFile (homeDir : String) : String :=
  osPathJoin2 homeDir ("." ++ ANACONDA_USER ++ "_anaconda_token")

/-- `WORKING_DIR` (lines 25-28). -/
def workingDir (homeDir : String) : String :=
  osPathJoin2 homeDir "temporary_pkgbld_working_dir"

/-- `BUILDS_DIR` (line 29). -/
def BUILDS_DIR : String := "pkgbld_output"

/-- The parameter-checking block of `release` (lines 82-106), in source
order: `isinstance` checks for `repo_name`, `pkg_name`, `version` and
`local`; when `local` is true, the `cwd.endswith(repo_name)` and
`os.path.isdir('./' + pkg_name)` checks; the `isinstance` check for
`dryrun`; and the `re.match` version-pattern check.  Returns the
extracted values or the first `ValueError` raised. -/
def checkParams (env : Env) (a : Args) :
    Except PyExn (String × String × String × Bool × Bool) :=
  match a.repo_name.asStr with
  | Option.none => Except.error (PyExn.valueError "repo_name is not a string object")
  | some repo_name =>
  match a.pkg_name.asStr with
  | Option.none => Except.error (PyExn.valueError "pkg_name is not a string object")
  | some pkg_name =>
  match a.version.asStr with
  | Option.none => Except.error (PyExn.valueError "version is not a string object")
  | some version =>
  match a.lokal.asBool with
  | Option.none => Except.error (PyExn.valueError "local is not a boolean object")
  | some lcl =>
  if lcl && !(pyEndsWith env.cwd repo_name) then
    Except.error (PyExn.valueError
      ("ERROR: cwd=" ++ env.cwd ++ " does not correspond to REPOSITORY_NAME="
        ++ repo_name ++ "\n"))
  else if lcl && !(env.cwdIsdir (osPathJoin2 "." pkg_name)) then
    Except.error (PyExn.valueError
      ("ERROR: cwd=" ++ env.cwd ++ " does not contain subdirectory "
        ++ pkg_name ++ " "))
  else
  match a.dryrun.asBool with
  | Option.none => Except.error (PyExn.valueError "dryrun is not a boolean object")
  | some dryrun =>
  if !(pyMatchVersion version) then
    Except.error (PyExn.valueError
      ("version=" ++ version ++ " does not have X.Y.Z semantic-versioning pattern"))
  else
    Except.ok (repo_name, pkg_name, version, lcl, dryrun)

/-- Execution of an effectful fragment: the effects it performs (in
order) and its outcome.  Sequencing (`M.seq`) appends effects and stops
at the first raised exception, matching Python's linear execution. -/
abbrev M (α : Type) : Type := List Effect × Except PyExn α

/-- Sequential composition of effectful fragments. -/
def M.seq {α β : Type} (m : M α) (f : α → M β) : M β :=
  match m with
  | (es, Except.ok a) => ((es ++ (f a).1, (f a).2) : M β)
  | (es, Except.error e) => ((es, Except.error e) : M β)

instance : Monad M where
  pure a := ([], Except.ok a)
  bind := M.seq

/-- Perform one effect that cannot fail. -/
def emit (e : Effect) : M Unit := ([e], Except.ok ())

/-- Modelled from the spec: `pkgbld.utils.os_call` (not under `src/`)
runs a shell command; "any nonzero exit from the external tool is fatal
and propagated" unless `ignore_error` is passed, in which case a failure
is "explicitly swallowed; logged/ignored, procedure continues".  This is
the strict (default, `ignore_error=False`) form. -/
def osCallStrict (env : Env) (cmd : String) : M Unit :=
  ([Effect.osCall cmd false],
   if env.osCallOk cmd then Except.ok () else Except.error (PyExn.osCallError cmd))

/-- Modelled from the spec: `pkgbld.utils.os_call` with
`ignore_error=True` (release.py line 196) — the command is run and any
failure is swallowed, so the fragment always succeeds. -/
def osCallIgnore (cmd : String) : M Unit :=
  ([Effect.osCall cmd true], Except.ok ())

/-- `shutil.copytree` (line 137): "failure to copy (permission, missing
path) is fatal and unrecovered". -/
def copytreeM (env : Env) (src dst : String) (ign : List String) : M Unit :=
  ([Effect.copytree src dst ign],
   if env.copytreeOk then Except.ok () else Except.error (PyExn.copytreeError src dst))

/-- Modelled from the spec: `pkgbld.utils.file_revision` (not under
`src/`) rewrites every line of `filename` matching `pattern` to
`replacement`, in place; "failure if the target file does not exist is
fatal". -/
def fileRevisionM (env : Env) (filename pattern replacement : String) : M Unit :=
  ([Effect.fileRevision filename pattern replacement],
   if env.fileRevisionOk filename then Except.ok ()
   else Except.error (PyExn.fileRevisionError filename))

/-- The `git clone` command composed at lines 145-147. -/
def gitCloneCmd (version repo_name : String) : String :=
  "git clone --branch " ++ version ++ " --depth 1 " ++ GITHUB_URL ++ "/" ++ repo_name ++ "/"

/-- The iteration `for channel in channels or []` (line 173): `None` and
the empty string are falsy and contribute nothing; a list is iterated
element by element; a nonempty string is iterated character by
character. -/
def channelIter : ChannelsArg → List String
  | ChannelsArg.none => []
  | ChannelsArg.list xs => xs
  | ChannelsArg.str s => s.data.map (fun c => String.singleton c)

/-- The `channel_str` accumulation of lines 172-175. -/
def channelStr (c : ChannelsArg) : String :=
  (channelIter c).foldl (fun acc ch => acc ++ " --channel " ++ ch) ""
    ++ " --channel defaults --channel " ++ ANACONDA_CHANNEL

/-- `TOKEN = ANACONDA_TOKEN or ANACONDA_TOKEN_FILE` (line 185), where
`ANACONDA_TOKEN = os.environ.get("CONDA_TOKEN", None)`: an unset or
empty (falsy) environment variable falls back to the token file path. -/
def tokenOf (env : Env) : String :=
  match env.condaToken with
  | some t => if t = "" then anacondaTokenFile env.homeDir else t
  | Option.none => anacondaTokenFile env.homeDir

/-- The `conda build` command composed at lines 186-189. -/
def buildCmd (env : Env) (c : ChannelsArg) : String :=
  "conda build conda.recipe/ --token " ++ tokenOf env ++ " --user " ++ ANACONDA_USER
    ++ " --output-folder " ++ BUILDS_DIR ++ " --override-channels " ++ channelStr c

/-- The `conda uninstall` command (line 195). -/
def uninstallCmd (pkg_name : String) : String :=
  "conda uninstall " ++ pkg_name ++ " --yes"

/-- `pkg_dir = os.path.join('file://', WORKING_DIR, repo_name,
'pkgbld_output')` (lines 198-199). -/
def pkgDir (env : Env) (repo_name : String) : String :=
  osPathJoin2 (osPathJoin2 (osPathJoin2 "file://" (workingDir env.homeDir)) repo_name)
    "pkgbld_output"

/-- The `conda install` command (lines 200-201). -/
def installCmd (env : Env) (repo_name pkg_name version : String) : String :=
  "conda install --channel " ++ pkgDir env repo_name ++ " " ++ pkg_name ++ "="
    ++ version ++ " --yes"

/-- The body of `release` after the parameter checks (lines 108-213),
with the extracted parameter values: plan printing, the dry-run early
return, stale working-directory removal, source acquisition (local copy
or remote clone), version stamping of the three files, upload
configuration, the single `conda build` invocation, the local
uninstall/install pair, and cleanup. -/
def releaseBody (env : Env) (chans : ChannelsArg)
    (repo_name pkg_name version : String) (lcl dryrun : Bool) : M Unit := do
  emit (Effect.print ": Package-Builder will build model packages for:")
  emit (Effect.print (":   repository_name = " ++ repo_name))
  emit (Effect.print (":   package_name = " ++ pkg_name))
  emit (Effect.print (":   model_version = " ++ version))
  emit (Effect.print (":   additional channels= " ++ chans.pyStr))
  if lcl then
    emit (Effect.print ": Package-Builder will install package on local computer")
  else do
    emit (Effect.print ": Package-Builder will upload model packages to:")
    emit (Effect.print (":   Anaconda channel = " ++ ANACONDA_CHANNEL))
    emit (Effect.print (":   using token in file = " ++ anacondaTokenFile env.homeDir))
  if dryrun then
    emit (Effect.print ": Package-Builder is quitting")
  else do
    emit (Effect.print (": Package-Builder is starting at " ++ env.asctime1))
    if env.workingDirExists then
      emit (Effect.rmtree (workingDir env.homeDir))
    else
      pure ()
    if lcl then do
      emit (Effect.print ": Package-Builder is copying local source code")
      copytreeM env env.cwd (osPathJoin2 (workingDir env.homeDir) repo_name)
        ["*.pyc", "*.html", "test_*"]
      emit (Effect.chdir (workingDir env.homeDir))
    else do
      emit (Effect.print (": Package-Builder is cloning repository code for " ++ version))
      emit (Effect.mkdir (workingDir env.homeDir))
      emit (Effect.chdir (workingDir env.homeDir))
      osCallStrict env (gitCloneCmd version repo_name)
    emit (Effect.chdir repo_name)
    emit (Effect.print ": Package-Builder is setting version")
    fileRevisionM env (osPathJoin2 "conda.recipe" "meta.yaml")
      "version: .*" ("version: " ++ version)
    fileRevisionM env "setup.py"
      "version = .*" ("version = \"" ++ version ++ "\"")
    fileRevisionM env (osPathJoin2 pkg_name "__init__.py")
      "__version__ = .*" ("__version__ = \"" ++ version ++ "\"")
    if lcl then
      osCallStrict env "conda config --set anaconda_upload no"
    else
      osCallStrict env "conda config --set anaconda_upload yes"
    emit (Effect.print ": Package-Builder is building package")
    osCallStrict env (buildCmd env chans)
    if lcl then do
      emit (Effect.print ": Package-Builder is uninstalling any existing package")
      osCallIgnore (uninstallCmd pkg_name)
      emit (Effect.print ": Package-Builder is installing package on local computer")
      osCallStrict env (installCmd env repo_name pkg_name version)
    else
      pure ()
    emit (Effect.print ": Package-Builder is cleaning-up")
    osCallStrict env "conda build purge"
    emit (Effect.chdir env.homeDir)
    emit (Effect.rmtree (workingDir env.homeDir))
    emit (Effect.print (": Package-Builder is finishing at " ++ env.asctime2))

/-- The whole `release` procedure: parameter validation (which performs
no effects), then the body. -/
def release (env : Env) (a : Args) : List Effect × Except PyExn Unit :=
  match checkParams env a with
  | Except.error e => ([], Except.error e)
  | Except.ok (repo_name, pkg_name, version, lcl, dryrun) =>
      releaseBody env a.channels repo_name pkg_name version lcl dryrun

/-- The plan lines printed at lines 109-119, before the dry-run test. -/
def planPrints (env : Env) (chans : ChannelsArg) (repo_name pkg_name version : String)
    (lcl : Bool) : List Effect :=
  [Effect.print ": Package-Builder will build model packages for:",
   Effect.print (":   repository_name = " ++ repo_name),
   Effect.print (":   package_name = " ++ pkg_name),
   Effect.print (":   model_version = " ++ version),
   Effect.print (":   additional channels= " ++ chans.pyStr)]
  ++ (if lcl then
        [Effect.print ": Package-Builder will install package on local computer"]
      else
        [Effect.print ": Package-Builder will upload model packages to:",
         Effect.print (":   Anaconda channel = " ++ ANACONDA_CHANNEL),
         Effect.print (":   using token in file = " ++ anacondaTokenFile env.homeDir)])

/-- The first version-stamping event (lines 154-158). -/
def frEvt1 (version : String) : Effect :=
  Effect.fileRevision (osPathJoin2 "conda.recipe" "meta.yaml")
    "version: .*" ("version: " ++ version)

/-- The second version-stamping event (lines 160-164). -/
def frEvt2 (version : String) : Effect :=
  Effect.fileRevision "setup.py" "version = .*" ("version = \"" ++ version ++ "\"")

/-- The third version-stamping event (lines 166-170). -/
def frEvt3 (pkg_name version : String) : Effect :=
  Effect.fileRevision (osPathJoin2 pkg_name "__init__.py")
    "__version__ = .*" ("__version__ = \"" ++ version ++ "\"")

/-- Discriminator for print events: a print performs no filesystem
mutation, no network call, and no external tool invocation. -/
def isPrintEvt : Effect → Bool
  | Effect.print _ => true
  | _ => false

/-- Discriminator for version-stamping events. -/
def isFileRevisionEvt : Effect → Bool
  | Effect.fileRevision _ _ _ => true
  | _ => false

/-- All effects of a remote-mode (`local=False`) run from the start up
to and including the `": Package-Builder is building package"` line that
immediately precedes the build invocation, assuming the clone, the three
stampings and the upload configuration succeed. -/
def remotePreBuild (env : Env) (chans : ChannelsArg)
    (repo_name pkg_name version : String) : List Effect :=
  planPrints env chans repo_name pkg_name version false
  ++ [Effect.print (": Package-Builder is starting at " ++ env.asctime1)]
  ++ (if env.workingDirExists then [Effect.rmtree (workingDir env.homeDir)] else [])
  ++ [Effect.print (": Package-Builder is cloning repository code for " ++ version),
      Effect.mkdir (workingDir env.homeDir),
      Effect.chdir (workingDir env.homeDir),
      Effect.osCall (gitCloneCmd version repo_name) false,
      Effect.chdir repo_name,
      Effect.print ": Package-Builder is setting version",
      frEvt1 version, frEvt2 version, frEvt3 pkg_name version,
      Effect.osCall "conda config --set anaconda_upload yes" false,
      Effect.print ": Package-Builder is building package"]

/-- The cleanup effects (lines 203-213): the purge call, then, if it
succeeds, the return home, the working-directory removal and the final
print. -/
def cleanupTrace (env : Env) : List Effect :=
  [Effect.print ": Package-Builder is cleaning-up",
   Effect.osCall "conda build purge" false]
  ++ (if env.osCallOk "conda build purge" then
        [Effect.chdir env.homeDir,
         Effect.rmtree (workingDir env.homeDir),
         Effect.print (": Package-Builder is finishing at " ++ env.asctime2)]
      else [])

/-- The outcome of the cleanup section. -/
def cleanupResult (env : Env) : Except PyExn Unit :=
  if env.osCallOk "conda build purge" then Except.ok ()
  else Except.error (PyExn.osCallError "conda build purge")

/-- Effects after the build invocation in a remote-mode run: nothing if
the build fails (the exception aborts the procedure), the cleanup
section otherwise. -/
def afterBuildRemote (env : Env) (chans : ChannelsArg) : List Effect :=
  if env.osCallOk (buildCmd env chans) then cleanupTrace env else []

/-- Outcome of a remote-mode run that reached the build invocation. -/
def afterBuildRemoteResult (env : Env) (chans : ChannelsArg) : Except PyExn Unit :=
  if env.osCallOk (buildCmd env chans) then cleanupResult env
  else Except.error (PyExn.osCallError (buildCmd env chans))

/-- Pre-build effects of a local-mode (`local=True`) run, assuming the
tree copy, the three stampings and the upload configuration succeed. -/
def localPreBuild (env : Env) (chans : ChannelsArg)
    (repo_name pkg_name version : String) : List Effect :=
  planPrints env chans repo_name pkg_name version true
  ++ [Effect.print (": Package-Builder is starting at " ++ env.asctime1)]
  ++ (if env.workingDirExists then [Effect.rmtree (workingDir env.homeDir)] else [])
  ++ [Effect.print ": Package-Builder is copying local source code",
      Effect.copytree env.cwd (osPathJoin2 (workingDir env.homeDir) repo_name)
        ["*.pyc", "*.html", "test_*"],
      Effect.chdir (workingDir env.homeDir),
      Effect.chdir repo_name,
      Effect.print ": Package-Builder is setting version",
      frEvt1 version, frEvt2 version, frEvt3 pkg_name version,
      Effect.osCall "conda config --set anaconda_upload no" false,
      Effect.print ": Package-Builder is building package"]

/-- The local uninstall/install section (lines 192-201): the tolerated
uninstall, then the strict install. -/
def installTrace (env : Env) (repo_name pkg_name version : String) : List Effect :=
  [Effect.print ": Package-Builder is uninstalling any existing package",
   Effect.osCall (uninstallCmd pkg_name) true,
   Effect.print ": Package-Builder is installing package on local computer",
   Effect.osCall (installCmd env repo_name pkg_name version) false]

/-- Effects after the build invocation in a local-mode run. -/
def afterBuildLocal (env : Env) (chans : ChannelsArg)
    (repo_name pkg_name version : String) : List Effect :=
  if env.osCallOk (buildCmd env chans) then
    installTrace env repo_name pkg_name version
      ++ (if env.osCallOk (installCmd env repo_name pkg_name version) then
            cleanupTrace env
          else [])
  else []

/-- Outcome of a local-mode run that reached the build invocation. -/
def afterBuildLocalResult (env : Env) (chans : ChannelsArg)
    (repo_name pkg_name version : String) : Except PyExn Unit :=
  if env.osCallOk (buildCmd env chans) then
    if env.osCallOk (installCmd env repo_name pkg_name version) then cleanupResult env
    else Except.error (PyExn.osCallError (installCmd env repo_name pkg_name version))
  else Except.error (PyExn.osCallError (buildCmd env chans))

/-- A concrete environment in which every external operation succeeds,
used to instantiate universally quantified theorems. -/
def sampleEnv : Env :=
  { homeDir := "/root", condaToken := Option.none, cwd := "/root/Tax-Calculator",
    cwdIsdir := fun _ => true, workingDirExists := false, copytreeOk := true,
    osCallOk := fun _ => true, fileRevisionOk := fun _ => true,
    asctime1 := "Mon Oct 12 09:00:00 2026", asctime2 := "Mon Oct 12 09:05:00 2026" }

/-- A concrete environment whose current working directory merely ENDS
WITH the repository name without its final path segment being equal to
it. -/
def wrongDirEnv : Env :=
  { sampleEnv with cwd := "/home/user/MyTax-Calculator" }

/-- A concrete environment whose current working directory contains no
subdirectories at all. -/
def noSubdirEnv : Env :=
  { sampleEnv with cwdIsdir := fun _ => false }

/-- The final path segment of a path string, as the spec words it ("the
current working location's final path segment"): the part after the last
`/`. -/
def specLastPathSegment (s : String) : String :=
  String.mk ((splitOnChar '/' s.data).getLastD [])

/-- The channel-argument block that the spec describes as a list: one
` --channel <name>` fragment per list element, in order. -/
def channelArgsString : List String → String
  | [] => ""
  | c :: rest => " --channel " ++ c ++ channelArgsString rest

theorem mseq_ok {α β : Type} (es : List Effect) (a : α) (f : α → M β) :
    M.seq (es, Except.ok a) f = (es ++ (f a).1, (f a).2) := rfl

theorem mseq_error {α β : Type} (es : List Effect) (e : PyExn) (f : α → M β) :
    M.seq ((es, Except.error e) : M α) f = (es, Except.error e) := rfl

theorem bind_eq_mseq {α β : Type} (m : M α) (f : α → M β) :
    m >>= f = M.seq m f := rfl

theorem pure_eq_M {α : Type} (a : α) :
    (pure a : M α) = ([], Except.ok a) := rfl

/-- Complete characterization of a remote-mode (`local=False`,
`dryrun=False`) run whose steps up to the build invocation all succeed:
the effect trace is the deterministic pre-build prefix, the build call,
and the outcome-dependent remainder. -/
theorem release_remote_run (env : Env) (chans : ChannelsArg)
    (repo_name pkg_name version : String)
    (hv : pyMatchVersion version = true)
    (hclone : env.osCallOk (gitCloneCmd version repo_name) = true)
    (hf1 : env.fileRevisionOk (osPathJoin2 "conda.recipe" "meta.yaml") = true)
    (hf2 : env.fileRevisionOk "setup.py" = true)
    (hf3 : env.fileRevisionOk (osPathJoin2 pkg_name "__init__.py") = true)
    (hcfg : env.osCallOk "conda config --set anaconda_upload yes" = true) :
    release env ⟨PyVal.str repo_name, PyVal.str pkg_name, PyVal.str version,
        PyVal.bool false, PyVal.bool false, chans⟩ =
      (remotePreBuild env chans repo_name pkg_name version
         ++ Effect.osCall (buildCmd env chans) false :: afterBuildRemote env chans,
       afterBuildRemoteResult env chans) := by
  cases hwd : env.workingDirExists <;>
    cases hb : env.osCallOk (buildCmd env chans) <;>
      cases hp : env.osCallOk "conda build purge" <;>
        simp [release, checkParams, PyVal.asStr, PyVal.asBool, releaseBody,
          bind_eq_mseq, mseq_ok, mseq_error, pure_eq_M, emit, osCallStrict,
          osCallIgnore, copytreeM, fileRevisionM, planPrints, remotePreBuild,
          afterBuildRemote, afterBuildRemoteResult, cleanupTrace, cleanupResult,
          frEvt1, frEvt2, frEvt3, hv, hclone, hf1, hf2, hf3, hcfg, hwd, hb, hp]

/-- Complete characterization of a local-mode (`local=True`,
`dryrun=False`) run whose steps up to the build invocation all
succeed. -/
theorem release_local_run (env : Env) (chans : ChannelsArg)
    (repo_name pkg_name version : String)
    (hend : pyEndsWith env.cwd repo_name = true)
    (hdir : env.cwdIsdir (osPathJoin2 "." pkg_name) = true)
    (hv : pyMatchVersion version = true)
    (hcp : env.copytreeOk = true)
    (hf1 : env.fileRevisionOk (osPathJoin2 "conda.recipe" "meta.yaml") = true)
    (hf2 : env.fileRevisionOk "setup.py" = true)
    (hf3 : env.fileRevisionOk (osPathJoin2 pkg_name "__init__.py") = true)
    (hcfg : env.osCallOk "conda config --set anaconda_upload no" = true) :
    release env ⟨PyVal.str repo_name, PyVal.str pkg_name, PyVal.str version,
        PyVal.bool true, PyVal.bool false, chans⟩ =
      (localPreBuild env chans repo_name pkg_name version
         ++ Effect.osCall (buildCmd env chans) false
            :: afterBuildLocal env chans repo_name pkg_name version,
       afterBuildLocalResult env chans repo_name pkg_name version) := by
  cases hwd : env.workingDirExists <;>
    cases hb : env.osCallOk (buildCmd env chans) <;>
      cases hi : env.osCallOk (installCmd env repo_name pkg_name version) <;>
        cases hp : env.osCallOk "conda build purge" <;>
          simp [release, checkParams, PyVal.asStr, PyVal.asBool, releaseBody,
            bind_eq_mseq, mseq_ok, mseq_error, pure_eq_M, emit, osCallStrict,
            osCallIgnore, copytreeM, fileRevisionM, planPrints, localPreBuild,
            afterBuildLocal, afterBuildLocalResult, installTrace, cleanupTrace,
            cleanupResult, frEvt1, frEvt2, frEvt3, hend, hdir, hv, hcp,
            hf1, hf2, hf3, hcfg, hwd, hb, hi, hp]

/-- A failed parameter check makes `release` raise at once, with an
empty effect trace. -/
theorem release_of_checkParams_error (env : Env) (a : Args) (e : PyExn)
    (h : checkParams env a = Except.error e) :
    release env a = ([], Except.error e) := by
  simp [release, h]

/-- Characterization of a dry run with valid parameters: the plan lines,
the quitting notice, and a normal return. -/
theorem release_dryrun_run (env : Env) (chans : ChannelsArg)
    (repo_name pkg_name version : String) (lcl : Bool)
    (hl : lcl = true →
      pyEndsWith env.cwd repo_name = true ∧ env.cwdIsdir (osPathJoin2 "." pkg_name) = true)
    (hv : pyMatchVersion version = true) :
    release env ⟨PyVal.str repo_name, PyVal.str pkg_name, PyVal.str version,
        PyVal.bool lcl, PyVal.bool true, chans⟩ =
      (planPrints env chans repo_name pkg_name version lcl
         ++ [Effect.print ": Package-Builder is quitting"],
       Except.ok ()) := by
  cases lcl with
  | false =>
      simp [release, checkParams, PyVal.asStr, PyVal.asBool, releaseBody,
        bind_eq_mseq, mseq_ok, mseq_error, pure_eq_M, emit, planPrints, hv]
  | true =>
      obtain ⟨hend, hdir⟩ := hl rfl
      simp [release, checkParams, PyVal.asStr, PyVal.asBool, releaseBody,
        bind_eq_mseq, mseq_ok, mseq_error, pure_eq_M, emit, planPrints,
        hv, hend, hdir]

theorem foldl_channel (xs : List String) (acc : String) :
    xs.foldl (fun a ch => a ++ " --channel " ++ ch) acc = acc ++ channelArgsString xs := by
  induction xs generalizing acc with
  | nil => simp [channelArgsString]
  | cons c rest ih =>
      rw [List.foldl_cons, ih]
      simp [channelArgsString, String.append_assoc]

theorem channelArgsString_append (xs ys : List String) :
    channelArgsString (xs ++ ys) = channelArgsString xs ++ channelArgsString ys := by
  induction xs with
  | nil => simp [channelArgsString]
  | cons c rest ih => simp [channelArgsString, ih, String.append_assoc]

/-- The `channel_str` accumulation of lines 172-175 renders exactly the
list consisting of the iterated extra channels followed by `defaults`
and the canonical publishing channel. -/
theorem channelStr_eq (c : ChannelsArg) :
    channelStr c = channelArgsString (channelIter c ++ ["defaults", ANACONDA_CHANNEL]) := by
  have h : " --channel defaults --channel " ++ ANACONDA_CHANNEL
      = channelArgsString ["defaults", ANACONDA_CHANNEL] := by decide
  rw [channelArgsString_append, ← h]
  simp only [channelStr, foldl_channel]
  simp [String.append_assoc]

/-- What `re.match(r'^[0-9]+\.[0-9]+\.[0-9]+$', s)` accepts: either the
whole string is in the language of `[0-9]+\.[0-9]+\.[0-9]+`, or the
string is such a match followed by exactly one trailing newline. -/
theorem pyMatchVersion_iff (s : String) :
    pyMatchVersion s = true ↔
      (isVersionCore s.data = true ∨
        ∃ u, s.data = u ++ ['\n'] ∧ isVersionCore u = true) := by
  unfold pyMatchVersion
  simp only [Bool.or_eq_true]
  constructor
  · rintro (h | h)
    · exact Or.inl h
    · right
      rcases hg : s.data.getLast? with _ | c
      · rw [hg] at h; simp at h
      · rw [hg] at h
        simp only [Bool.and_eq_true, decide_eq_true_eq] at h
        obtain ⟨hc, hcore⟩ := h
        have hne : s.data ≠ [] := by
          intro hnil; rw [hnil] at hg; simp at hg
        refine ⟨s.data.dropLast, ?_, hcore⟩
        have hsplit := List.dropLast_append_getLast hne
        have hlast : s.data.getLast hne = c := by
          have h2 := List.getLast?_eq_getLast s.data hne
          rw [hg] at h2
          exact (Option.some.injEq _ _).mp h2.symm
        rw [hlast, hc] at hsplit
        exact hsplit.symm
  · rintro (h | ⟨u, hu, hcore⟩)
    · exact Or.inl h
    · right
      rw [hu, List.getLast?_concat, List.dropLast_concat]
      simp [hcore]

theorem startsWithSlash_ne_nil (s : String) (h : startsWithSlash s = true) :
    s.data ≠ [] := by
  unfold startsWithSlash at h
  intro hnil
  rw [hnil] at h
  simp at h

theorem startsWithSlash_append (a b : String) (h : startsWithSlash a = true) :
    startsWithSlash (a ++ b) = true := by
  unfold startsWithSlash at h ⊢
  rw [String.data_append]
  cases ha : a.data with
  | nil => rw [ha] at h; simp at h
  | cons c cs => rw [ha] at h; simpa using h

theorem endsWithSlash_append (a b : String) (hb : b.data ≠ []) :
    endsWithSlash (a ++ b) = endsWithSlash b := by
  unfold endsWithSlash
  rw [String.data_append, List.getLast?_append_of_ne_nil _ hb]

theorem osPathJoin2_absolute (a b : String) (hb : startsWithSlash b = true) :
    osPathJoin2 a b = b := by
  simp [osPathJoin2, hb]

theorem osPathJoin2_sep (a b : String) (ha1 : a.data ≠ []) (ha2 : endsWithSlash a = false)
    (hb : startsWithSlash b = false) :
    osPathJoin2 a b = a ++ "/" ++ b := by
  simp [osPathJoin2, hb, ha2, List.isEmpty_iff, ha1]

/-- When the home directory is an absolute path, `WORKING_DIR` is an
absolute path not ending in a separator. -/
theorem workingDir_facts (h : String) (hh : startsWithSlash h = true) :
    startsWithSlash (workingDir h) = true ∧ endsWithSlash (workingDir h) = false := by
  have htail : ("temporary_pkgbld_working_dir" : String).data ≠ [] := by decide
  have hne := startsWithSlash_ne_nil h hh
  unfold workingDir osPathJoin2
  have hb : startsWithSlash "temporary_pkgbld_working_dir" = false := by decide
  rw [if_neg (by rw [hb]; exact Bool.false_ne_true)]
  by_cases hcond : (h.data.isEmpty || endsWithSlash h) = true
  · rw [if_pos hcond]
    refine ⟨startsWithSlash_append _ _ hh, ?_⟩
    rw [endsWithSlash_append _ _ htail]
    decide
  · rw [if_neg hcond]
    constructor
    · exact startsWithSlash_append _ _ (startsWithSlash_append _ _ hh)
    · rw [endsWithSlash_append _ _ htail]
      decide

theorem isPrefixOf_cons_ne (a b : Char) (as bs : List Char) (h : (a == b) = false) :
    List.isPrefixOf (a :: as) (b :: bs) = false := by
  simp [List.isPrefixOf, h]

/-- A string beginning with `/` does not begin with `file://`. -/
theorem pyStartsWith_file_of_slash (s : String) (h : startsWithSlash s = true) :
    pyStartsWith s "file://" = false := by
  unfold startsWithSlash at h
  unfold pyStartsWith
  cases hs : s.data with
  | nil => rw [hs] at h; simp at h
  | cons c cs =>
      rw [hs] at h
      simp only [decide_eq_true_eq] at h
      subst h
      rw [show ("file://".data) = ['f', 'i', 'l', 'e', ':', '/', '/'] from rfl]
      exact isPrefixOf_cons_ne _ _ _ _ (by decide)

/-- Value of `pkg_dir = os.path.join('file://', WORKING_DIR, repo_name,
'pkgbld_output')` (lines 198-199) when the home directory is absolute
and the repository name is a nonempty bare name: because `WORKING_DIR`
is an absolute later component, the `'file://'` component is discarded
and the result is a plain absolute path. -/
theorem pkgDir_eq (env : Env) (repo_name : String)
    (hh : startsWithSlash env.homeDir = true)
    (hr0 : repo_name.data ≠ [])
    (hr1 : startsWithSlash repo_name = false)
    (hr2 : endsWithSlash repo_name = false) :
    pkgDir env repo_name
      = workingDir env.homeDir ++ "/" ++ repo_name ++ "/" ++ "pkgbld_output" := by
  obtain ⟨hw1, hw2⟩ := workingDir_facts env.homeDir hh
  have hwne := startsWithSlash_ne_nil _ hw1
  unfold pkgDir
  rw [osPathJoin2_absolute _ _ hw1]
  rw [osPathJoin2_sep _ _ hwne hw2 hr1]
  have h1 : (workingDir env.homeDir ++ "/" ++ repo_name).data ≠ [] := by
    rw [String.data_append]
    simp [hr0]
  have h2 : endsWithSlash (workingDir env.homeDir ++ "/" ++ repo_name) = false := by
    rw [endsWithSlash_append _ _ hr0]
    exact hr2
  rw [osPathJoin2_sep _ _ h1 h2 (by decide)]

theorem ne_of_isPrefixOf (p s t : String)
    (hs : List.isPrefixOf p.data s.data = true)
    (ht : List.isPrefixOf p.data t.data = false) : s ≠ t := by
  intro he
  rw [he] at hs
  rw [hs] at ht
  exact absurd ht (by decide)

theorem buildCmd_ne_purge (env : Env) (c : ChannelsArg) :
    buildCmd env c ≠ "conda build purge" := by
  apply ne_of_isPrefixOf "conda build conda.recipe/"
  · simp only [buildCmd, ANACONDA_USER, BUILDS_DIR, String.data_append]
    rfl
  · decide

theorem installCmd_ne_purge (env : Env) (r p v : String) :
    installCmd env r p v ≠ "conda build purge" := by
  apply ne_of_isPrefixOf "conda install"
  · simp only [installCmd, String.data_append]
    rfl
  · decide

/-- C1: the claim says the validator accepts a version exactly when the
WHOLE string matches `^[0-9]+\.[0-9]+\.[0-9]+$` and rejects (with a
`ValueError` raised before any action) every other string.  This is
false: Python's `$` also matches just before a trailing newline, so
`release` accepts the version string `"1.0.1\n"`, which is not a
full-string match of the pattern, and raises no `ValueError` for it. -/
theorem c1_counterexample :
    pyMatchVersion "1.0.1\n" = true ∧
    specVersionFullMatch "1.0.1\n" = false ∧
    (release sampleEnv ⟨PyVal.str "Tax-Calculator", PyVal.str "taxcalc",
        PyVal.str "1.0.1\n", PyVal.bool false, PyVal.bool true, ChannelsArg.none⟩).2
      = Except.ok () := by
  refine ⟨by decide, by decide, ?_⟩
  rfl

/-- C1 (amended): the validator accepts a version string exactly when it
fully matches `[0-9]+\.[0-9]+\.[0-9]+` either as the whole string or as
the whole string minus a single trailing newline (Python `re` `$`
semantics); for every rejected version string (other parameters being
valid), `release` raises the descriptive `ValueError` before performing
any effect, and for every accepted one the parameter checks pass. -/
theorem c1_version_validation (env : Env) (chans : ChannelsArg)
    (repo_name pkg_name version : String) (lcl dr : Bool)
    (hl : lcl = true →
      pyEndsWith env.cwd repo_name = true
        ∧ env.cwdIsdir (osPathJoin2 "." pkg_name) = true) :
    (pyMatchVersion version = true ↔
      (specVersionFullMatch version = true ∨
        ∃ u, version.data = u ++ ['\n'] ∧ isVersionCore u = true)) ∧
    (pyMatchVersion version = false →
      release env ⟨PyVal.str repo_name, PyVal.str pkg_name, PyVal.str version,
          PyVal.bool lcl, PyVal.bool dr, chans⟩
        = ([], Except.error (PyExn.valueError
            ("version=" ++ version ++ " does not have X.Y.Z semantic-versioning pattern")))) ∧
    (pyMatchVersion version = true →
      ∃ out, checkParams env ⟨PyVal.str repo_name, PyVal.str pkg_name, PyVal.str version,
          PyVal.bool lcl, PyVal.bool dr, chans⟩ = Except.ok out) := by
  refine ⟨by simpa [specVersionFullMatch] using pyMatchVersion_iff version, ?_, ?_⟩
  · intro hv
    have hcp : checkParams env ⟨PyVal.str repo_name, PyVal.str pkg_name, PyVal.str version,
        PyVal.bool lcl, PyVal.bool dr, chans⟩
        = Except.error (PyExn.valueError
            ("version=" ++ version ++ " does not have X.Y.Z semantic-versioning pattern")) := by
      cases lcl with
      | false => simp [checkParams, PyVal.asStr, PyVal.asBool, hv]
      | true =>
          obtain ⟨hend, hdir⟩ := hl rfl
          simp [checkParams, PyVal.asStr, PyVal.asBool, hv, hend, hdir]
    exact release_of_checkParams_error _ _ _ hcp
  · intro hv
    cases lcl with
    | false =>
        exact ⟨(repo_name, pkg_name, version, false, dr),
          by simp [checkParams, PyVal.asStr, PyVal.asBool, hv]⟩
    | true =>
        obtain ⟨hend, hdir⟩ := hl rfl
        exact ⟨(repo_name, pkg_name, version, true, dr),
          by simp [checkParams, PyVal.asStr, PyVal.asBool, hv, hend, hdir]⟩

/-- Witness for `c1_version_validation`: at the concrete rejected input
`"1.0"`, `release` raises the `ValueError` with an empty effect
trace. -/
theorem c1_version_validation_witness :
    pyMatchVersion "1.0" = false ∧
    release sampleEnv ⟨PyVal.str "Tax-Calculator", PyVal.str "taxcalc", PyVal.str "1.0",
        PyVal.bool false, PyVal.bool false, ChannelsArg.none⟩
      = ([], Except.error (PyExn.valueError
          ("version=" ++ "1.0" ++ " does not have X.Y.Z semantic-versioning pattern"))) := by
  refine ⟨by decide, ?_⟩
  exact (c1_version_validation sampleEnv ChannelsArg.none "Tax-Calculator" "taxcalc" "1.0"
    false false (by intro h; exact absurd h (by decide))).2.1 (by decide)

/-- C3: the claim says local mode raises unless the FINAL PATH SEGMENT
of the current directory equals the repository name (and the package
subdirectory exists).  This is false: the code only tests
`cwd.endswith(repo_name)`.  In this concrete run the final path segment
is `MyTax-Calculator`, not `Tax-Calculator`, yet validation passes and
no `ValueError` is raised. -/
theorem c3_counterexample :
    specLastPathSegment wrongDirEnv.cwd ≠ "Tax-Calculator" ∧
    pyEndsWith wrongDirEnv.cwd "Tax-Calculator" = true ∧
    (release wrongDirEnv ⟨PyVal.str "Tax-Calculator", PyVal.str "taxcalc", PyVal.str "1.0.1",
        PyVal.bool true, PyVal.bool true, ChannelsArg.none⟩).2 = Except.ok () := by
  refine ⟨by decide, by decide, rfl⟩

/-- C3 (amended): when local mode is requested (with string-typed
`repo_name`, `pkg_name`, `version`), `release` raises a `ValueError`
unless the current working directory STRING ENDS WITH the repository
name and a subdirectory named exactly after the package name exists
beneath it; each error message names the directory and the offending
value. -/
theorem c3_local_validation (env : Env) (chans : ChannelsArg)
    (repo_name pkg_name version : String) (dr : Bool) :
    (pyEndsWith env.cwd repo_name = false →
      release env ⟨PyVal.str repo_name, PyVal.str pkg_name, PyVal.str version,
          PyVal.bool true, PyVal.bool dr, chans⟩
        = ([], Except.error (PyExn.valueError
            ("ERROR: cwd=" ++ env.cwd ++ " does not correspond to REPOSITORY_NAME="
              ++ repo_name ++ "\n")))) ∧
    (pyEndsWith env.cwd repo_name = true →
     env.cwdIsdir (osPathJoin2 "." pkg_name) = false →
      release env ⟨PyVal.str repo_name, PyVal.str pkg_name, PyVal.str version,
          PyVal.bool true, PyVal.bool dr, chans⟩
        = ([], Except.error (PyExn.valueError
            ("ERROR: cwd=" ++ env.cwd ++ " does not contain subdirectory "
              ++ pkg_name ++ " ")))) ∧
    (pyEndsWith env.cwd repo_name = true →
     env.cwdIsdir (osPathJoin2 "." pkg_name) = true →
     pyMatchVersion version = true →
      ∃ out, checkParams env ⟨PyVal.str repo_name, PyVal.str pkg_name, PyVal.str version,
          PyVal.bool true, PyVal.bool dr, chans⟩ = Except.ok out) := by
  refine ⟨?_, ?_, ?_⟩
  · intro hend
    exact release_of_checkParams_error _ _ _
      (by simp [checkParams, PyVal.asStr, PyVal.asBool, hend])
  · intro hend hdir
    exact release_of_checkParams_error _ _ _
      (by simp [checkParams, PyVal.asStr, PyVal.asBool, hend, hdir])
  · intro hend hdir hv
    exact ⟨(repo_name, pkg_name, version, true, dr),
      by simp [checkParams, PyVal.asStr, PyVal.asBool, hend, hdir, hv]⟩

/-- Witness for `c3_local_validation`: with the current directory named
`Tax-Calculator` but no `taxcalc` subdirectory, release raises the
message naming both, with no effects performed. -/
theorem c3_local_validation_witness :
    pyEndsWith noSubdirEnv.cwd "Tax-Calculator" = true ∧
    release noSubdirEnv ⟨PyVal.str "Tax-Calculator", PyVal.str "taxcalc", PyVal.str "1.0.1",
        PyVal.bool true, PyVal.bool false, ChannelsArg.none⟩
      = ([], Except.error (PyExn.valueError
          ("ERROR: cwd=" ++ noSubdirEnv.cwd ++ " does not contain subdirectory "
            ++ "taxcalc" ++ " "))) := by
  refine ⟨by decide, ?_⟩
  exact (c3_local_validation noSubdirEnv ChannelsArg.none "Tax-Calculator" "taxcalc" "1.0.1"
    false).2.1 (by decide) rfl

/-- C4: with valid parameters and `dryrun=True`, `release` prints the
execution plan and the termination notice and returns normally; every
effect of such a run is a print (so no filesystem mutation, no network
call, no external tool invocation); and with `dryrun=False` the same
arguments continue past the plan (the dry-run return is the only early
exit besides validation failure). -/
theorem c4_dryrun (env : Env) (chans : ChannelsArg)
    (repo_name pkg_name version : String) (lcl : Bool)
    (hl : lcl = true →
      pyEndsWith env.cwd repo_name = true
        ∧ env.cwdIsdir (osPathJoin2 "." pkg_name) = true)
    (hv : pyMatchVersion version = true) :
    release env ⟨PyVal.str repo_name, PyVal.str pkg_name, PyVal.str version,
        PyVal.bool lcl, PyVal.bool true, chans⟩
      = (planPrints env chans repo_name pkg_name version lcl
          ++ [Effect.print ": Package-Builder is quitting"], Except.ok ()) ∧
    (∀ e ∈ (release env ⟨PyVal.str repo_name, PyVal.str pkg_name, PyVal.str version,
        PyVal.bool lcl, PyVal.bool true, chans⟩).1, isPrintEvt e = true) ∧
    Effect.print (": Package-Builder is starting at " ++ env.asctime1)
      ∈ (release env ⟨PyVal.str repo_name, PyVal.str pkg_name, PyVal.str version,
          PyVal.bool lcl, PyVal.bool false, chans⟩).1 := by
  have h := release_dryrun_run env chans repo_name pkg_name version lcl hl hv
  refine ⟨h, ?_, ?_⟩
  · rw [h]
    cases lcl <;> simp [planPrints, isPrintEvt]
  · cases lcl with
    | false =>
        simp [release, checkParams, PyVal.asStr, PyVal.asBool, hv, releaseBody,
          bind_eq_mseq, mseq_ok, pure_eq_M, emit]
    | true =>
        obtain ⟨hend, hdir⟩ := hl rfl
        simp [release, checkParams, PyVal.asStr, PyVal.asBool, hv, hend, hdir,
          releaseBody, bind_eq_mseq, mseq_ok, pure_eq_M, emit]

/-- Witness for `c4_dryrun` at a concrete dry-run invocation. -/
theorem c4_dryrun_witness :
    release sampleEnv ⟨PyVal.str "Tax-Calculator", PyVal.str "taxcalc", PyVal.str "1.0.1",
        PyVal.bool false, PyVal.bool true, ChannelsArg.none⟩
      = (planPrints sampleEnv ChannelsArg.none "Tax-Calculator" "taxcalc" "1.0.1" false
          ++ [Effect.print ": Package-Builder is quitting"], Except.ok ()) ∧
    Effect.print (": Package-Builder is starting at " ++ sampleEnv.asctime1)
      ∈ (release sampleEnv ⟨PyVal.str "Tax-Calculator", PyVal.str "taxcalc",
          PyVal.str "1.0.1", PyVal.bool false, PyVal.bool false, ChannelsArg.none⟩).1 := by
  have h := c4_dryrun sampleEnv ChannelsArg.none "Tax-Calculator" "taxcalc" "1.0.1" false
    (by intro hc; exact absurd hc (by decide)) (by decide)
  exact ⟨h.1, h.2.2⟩

/-- C5: every parameter-validation failure (wrong type for `repo_name`,
`pkg_name`, `version`, `local` or `dryrun`, bad version shape, or
missing local directory structure) makes `release` raise a `ValueError`
whose message identifies the offending parameter, with an EMPTY effect
trace: no print, no directory creation or removal, no file write, no
external command.  The eight conjuncts enumerate the failure cases in
source order (lines 82-106) with the exact messages raised. -/
theorem pyval_asStr_str (s : String) : (PyVal.str s).asStr = some s := rfl

theorem pyval_asBool_bool (b : Bool) : (PyVal.bool b).asBool = some b := rfl

theorem c5_validation_failures (env : Env) (rv pv vv lv dv : PyVal) (chans : ChannelsArg) :
    (rv.asStr = Option.none →
      release env ⟨rv, pv, vv, lv, dv, chans⟩
        = ([], Except.error (PyExn.valueError "repo_name is not a string object"))) ∧
    (∀ r, rv = PyVal.str r → pv.asStr = Option.none →
      release env ⟨rv, pv, vv, lv, dv, chans⟩
        = ([], Except.error (PyExn.valueError "pkg_name is not a string object"))) ∧
    (∀ r p, rv = PyVal.str r → pv = PyVal.str p → vv.asStr = Option.none →
      release env ⟨rv, pv, vv, lv, dv, chans⟩
        = ([], Except.error (PyExn.valueError "version is not a string object"))) ∧
    (∀ r p v, rv = PyVal.str r → pv = PyVal.str p → vv = PyVal.str v →
     lv.asBool = Option.none →
      release env ⟨rv, pv, vv, lv, dv, chans⟩
        = ([], Except.error (PyExn.valueError "local is not a boolean object"))) ∧
    (∀ r p v, rv = PyVal.str r → pv = PyVal.str p → vv = PyVal.str v →
     lv = PyVal.bool true → pyEndsWith env.cwd r = false →
      release env ⟨rv, pv, vv, lv, dv, chans⟩
        = ([], Except.error (PyExn.valueError
            ("ERROR: cwd=" ++ env.cwd ++ " does not correspond to REPOSITORY_NAME="
              ++ r ++ "\n")))) ∧
    (∀ r p v, rv = PyVal.str r → pv = PyVal.str p → vv = PyVal.str v →
     lv = PyVal.bool true → pyEndsWith env.cwd r = true →
     env.cwdIsdir (osPathJoin2 "." p) = false →
      release env ⟨rv, pv, vv, lv, dv, chans⟩
        = ([], Except.error (PyExn.valueError
            ("ERROR: cwd=" ++ env.cwd ++ " does not contain subdirectory " ++ p ++ " ")))) ∧
    (∀ r p v b, rv = PyVal.str r → pv = PyVal.str p → vv = PyVal.str v →
     lv = PyVal.bool b →
     (b = true → pyEndsWith env.cwd r = true ∧ env.cwdIsdir (osPathJoin2 "." p) = true) →
     dv.asBool = Option.none →
      release env ⟨rv, pv, vv, lv, dv, chans⟩
        = ([], Except.error (PyExn.valueError "dryrun is not a boolean object"))) ∧
    (∀ r p v b d, rv = PyVal.str r → pv = PyVal.str p → vv = PyVal.str v →
     lv = PyVal.bool b → dv = PyVal.bool d →
     (b = true → pyEndsWith env.cwd r = true ∧ env.cwdIsdir (osPathJoin2 "." p) = true) →
     pyMatchVersion v = false →
      release env ⟨rv, pv, vv, lv, dv, chans⟩
        = ([], Except.error (PyExn.valueError
            ("version=" ++ v ++ " does not have X.Y.Z semantic-versioning pattern")))) := by
  refine ⟨?_, ?_, ?_, ?_, ?_, ?_, ?_, ?_⟩
  · intro h
    exact release_of_checkParams_error _ _ _ (by simp [checkParams, h])
  · rintro r rfl h
    exact release_of_checkParams_error _ _ _
      (by simp [checkParams, pyval_asStr_str, h])
  · rintro r p rfl rfl h
    exact release_of_checkParams_error _ _ _
      (by simp [checkParams, pyval_asStr_str, h])
  · rintro r p v rfl rfl rfl h
    exact release_of_checkParams_error _ _ _
      (by simp [checkParams, pyval_asStr_str, h])
  · rintro r p v rfl rfl rfl rfl hend
    exact release_of_checkParams_error _ _ _
      (by simp [checkParams, PyVal.asStr, PyVal.asBool, hend])
  · rintro r p v rfl rfl rfl rfl hend hdir
    exact release_of_checkParams_error _ _ _
      (by simp [checkParams, PyVal.asStr, PyVal.asBool, hend, hdir])
  · rintro r p v b rfl rfl rfl rfl hloc h
    cases b with
    | false =>
        exact release_of_checkParams_error _ _ _
          (by simp [checkParams, pyval_asStr_str, pyval_asBool_bool, h])
    | true =>
        obtain ⟨hend, hdir⟩ := hloc rfl
        exact release_of_checkParams_error _ _ _
          (by simp [checkParams, pyval_asStr_str, pyval_asBool_bool, h, hend, hdir])
  · rintro r p v b d rfl rfl rfl rfl rfl hloc hv
    cases b with
    | false =>
        exact release_of_checkParams_error _ _ _
          (by simp [checkParams, PyVal.asStr, PyVal.asBool, hv])
    | true =>
        obtain ⟨hend, hdir⟩ := hloc rfl
        exact release_of_checkParams_error _ _ _
          (by simp [checkParams, PyVal.asStr, PyVal.asBool, hv, hend, hdir])

/-- Witness for `c5_validation_failures`: a non-string `repo_name`
aborts with the identifying message and an empty trace. -/
theorem c5_validation_failures_witness :
    release sampleEnv ⟨PyVal.int 3, PyVal.str "taxcalc", PyVal.str "1.0.1",
        PyVal.bool false, PyVal.bool false, ChannelsArg.none⟩
      = ([], Except.error (PyExn.valueError "repo_name is not a string object")) :=
  (c5_validation_failures sampleEnv (PyVal.int 3) (PyVal.str "taxcalc") (PyVal.str "1.0.1")
    (PyVal.bool false) (PyVal.bool false) ChannelsArg.none).1 rfl

theorem buildCmd_ne_gitCloneCmd (env : Env) (c : ChannelsArg) (v r : String) :
    buildCmd env c ≠ gitCloneCmd v r := by
  apply ne_of_isPrefixOf "conda build"
  · simp only [buildCmd, ANACONDA_USER, BUILDS_DIR, String.data_append]
    rfl
  · simp only [gitCloneCmd, GITHUB_URL, String.data_append]
    rfl

/-- C6: in every non-dry-run execution that reaches the build
invocation (remote or local), the trace splits around the single build
call such that the version-stamping events before it are exactly the
three target files with their patterns — `conda.recipe/meta.yaml` with
`version: .*`, `setup.py` with `version = .*`, and
`<pkg_name>/__init__.py` with `__version__ = .*` — and no stamping
occurs after it; moreover if the `setup.py` stamping fails the build
invocation never happens, so the build never runs on an unstamped
tree. -/
theorem c6_stamping (env : Env) (chans : ChannelsArg)
    (repo_name pkg_name version : String)
    (hv : pyMatchVersion version = true) :
    (env.fileRevisionOk (osPathJoin2 "conda.recipe" "meta.yaml") = true →
     env.fileRevisionOk "setup.py" = true →
     env.fileRevisionOk (osPathJoin2 pkg_name "__init__.py") = true →
     env.osCallOk (gitCloneCmd version repo_name) = true →
     env.osCallOk "conda config --set anaconda_upload yes" = true →
      ∃ pre suf,
        (release env ⟨PyVal.str repo_name, PyVal.str pkg_name, PyVal.str version,
            PyVal.bool false, PyVal.bool false, chans⟩).1
          = pre ++ Effect.osCall (buildCmd env chans) false :: suf ∧
        pre.filter isFileRevisionEvt
          = [frEvt1 version, frEvt2 version, frEvt3 pkg_name version] ∧
        suf.filter isFileRevisionEvt = []) ∧
    (pyEndsWith env.cwd repo_name = true →
     env.cwdIsdir (osPathJoin2 "." pkg_name) = true →
     env.copytreeOk = true →
     env.fileRevisionOk (osPathJoin2 "conda.recipe" "meta.yaml") = true →
     env.fileRevisionOk "setup.py" = true →
     env.fileRevisionOk (osPathJoin2 pkg_name "__init__.py") = true →
     env.osCallOk "conda config --set anaconda_upload no" = true →
      ∃ pre suf,
        (release env ⟨PyVal.str repo_name, PyVal.str pkg_name, PyVal.str version,
            PyVal.bool true, PyVal.bool false, chans⟩).1
          = pre ++ Effect.osCall (buildCmd env chans) false :: suf ∧
        pre.filter isFileRevisionEvt
          = [frEvt1 version, frEvt2 version, frEvt3 pkg_name version] ∧
        suf.filter isFileRevisionEvt = []) ∧
    (env.fileRevisionOk "setup.py" = false →
     ∀ lcl : Bool,
      Effect.osCall (buildCmd env chans) false
        ∉ (release env ⟨PyVal.str repo_name, PyVal.str pkg_name, PyVal.str version,
            PyVal.bool lcl, PyVal.bool false, chans⟩).1) := by
  refine ⟨?_, ?_, ?_⟩
  · intro hf1 hf2 hf3 hclone hcfg
    rw [release_remote_run env chans repo_name pkg_name version hv hclone hf1 hf2 hf3 hcfg]
    refine ⟨remotePreBuild env chans repo_name pkg_name version,
      afterBuildRemote env chans, by simp, ?_, ?_⟩
    · cases hwd : env.workingDirExists <;>
        simp [remotePreBuild, planPrints, isFileRevisionEvt, frEvt1, frEvt2, frEvt3, hwd]
    · cases hb : env.osCallOk (buildCmd env chans) <;>
        cases hp : env.osCallOk "conda build purge" <;>
          simp [afterBuildRemote, cleanupTrace, isFileRevisionEvt, hb, hp]
  · intro hend hdir hcp hf1 hf2 hf3 hcfg
    rw [release_local_run env chans repo_name pkg_name version hend hdir hv hcp hf1 hf2 hf3 hcfg]
    refine ⟨localPreBuild env chans repo_name pkg_name version,
      afterBuildLocal env chans repo_name pkg_name version, by simp, ?_, ?_⟩
    · cases hwd : env.workingDirExists <;>
        simp [localPreBuild, planPrints, isFileRevisionEvt, frEvt1, frEvt2, frEvt3, hwd]
    · cases hb : env.osCallOk (buildCmd env chans) <;>
        cases hi : env.osCallOk (installCmd env repo_name pkg_name version) <;>
          cases hp : env.osCallOk "conda build purge" <;>
            simp [afterBuildLocal, installTrace, cleanupTrace, isFileRevisionEvt, hb, hi, hp]
  · intro hf2f lcl
    have hbg := buildCmd_ne_gitCloneCmd env chans version repo_name
    cases lcl with
    | false =>
        cases hwd : env.workingDirExists <;>
          cases hcl : env.osCallOk (gitCloneCmd version repo_name) <;>
            cases hf1 : env.fileRevisionOk (osPathJoin2 "conda.recipe" "meta.yaml") <;>
              simp [release, checkParams, PyVal.asStr, PyVal.asBool, hv, releaseBody,
                bind_eq_mseq, mseq_ok, mseq_error, pure_eq_M, emit, osCallStrict,
                fileRevisionM, hwd, hcl, hf1, hf2f, hbg]
    | true =>
        cases hend : pyEndsWith env.cwd repo_name with
        | false =>
            simp [release, checkParams, PyVal.asStr, PyVal.asBool, hend]
        | true =>
            cases hdir : env.cwdIsdir (osPathJoin2 "." pkg_name) with
            | false =>
                simp [release, checkParams, PyVal.asStr, PyVal.asBool, hend, hdir]
            | true =>
                cases hwd : env.workingDirExists <;>
                  cases hcp : env.copytreeOk <;>
                    cases hf1 : env.fileRevisionOk (osPathJoin2 "conda.recipe" "meta.yaml") <;>
                      simp [release, checkParams, PyVal.asStr, PyVal.asBool, hv, hend, hdir,
                        releaseBody, bind_eq_mseq, mseq_ok, mseq_error, pure_eq_M, emit,
                        osCallStrict, fileRevisionM, copytreeM, hwd, hcp, hf1, hf2f, hbg]

/-- Witness for `c6_stamping` at a concrete successful remote run. -/
theorem c6_stamping_witness :
    ∃ pre suf,
      (release sampleEnv ⟨PyVal.str "Tax-Calculator", PyVal.str "taxcalc",
          PyVal.str "1.0.1", PyVal.bool false, PyVal.bool false, ChannelsArg.none⟩).1
        = pre ++ Effect.osCall (buildCmd sampleEnv ChannelsArg.none) false :: suf ∧
      pre.filter isFileRevisionEvt
        = [frEvt1 "1.0.1", frEvt2 "1.0.1", frEvt3 "taxcalc" "1.0.1"] ∧
      suf.filter isFileRevisionEvt = [] :=
  (c6_stamping sampleEnv ChannelsArg.none "Tax-Calculator" "taxcalc" "1.0.1"
    (by decide)).1 rfl rfl rfl rfl rfl

/-- C7: the channel arguments of the single build invocation are the
caller-supplied extra channels in caller order, then `defaults`, then
the canonical publishing channel `pslmodels` — so the channel list
always ends in `defaults`, `pslmodels`; and the build command carrying
exactly this channel block is the one invoked. -/
theorem c7_channel_order (env : Env) (xs : List String)
    (repo_name pkg_name version : String)
    (hv : pyMatchVersion version = true) :
    channelIter (ChannelsArg.list xs) = xs ∧
    channelStr (ChannelsArg.list xs) = channelArgsString (xs ++ ["defaults", "pslmodels"]) ∧
    buildCmd env (ChannelsArg.list xs)
      = "conda build conda.recipe/ --token " ++ tokenOf env ++ " --user pslmodels"
        ++ " --output-folder pkgbld_output --override-channels "
        ++ channelArgsString (xs ++ ["defaults", "pslmodels"]) ∧
    (env.fileRevisionOk (osPathJoin2 "conda.recipe" "meta.yaml") = true →
     env.fileRevisionOk "setup.py" = true →
     env.fileRevisionOk (osPathJoin2 pkg_name "__init__.py") = true →
     env.osCallOk (gitCloneCmd version repo_name) = true →
     env.osCallOk "conda config --set anaconda_upload yes" = true →
      Effect.osCall (buildCmd env (ChannelsArg.list xs)) false
        ∈ (release env ⟨PyVal.str repo_name, PyVal.str pkg_name, PyVal.str version,
            PyVal.bool false, PyVal.bool false, ChannelsArg.list xs⟩).1) := by
  have hcs : channelStr (ChannelsArg.list xs)
      = channelArgsString (xs ++ ["defaults", "pslmodels"]) := by
    have h := channelStr_eq (ChannelsArg.list xs)
    simpa [channelIter, ANACONDA_CHANNEL, ANACONDA_USER] using h
  refine ⟨rfl, hcs, ?_, ?_⟩
  · rw [buildCmd, hcs]
    simp [ANACONDA_USER, BUILDS_DIR, String.append_assoc]
  · intro hf1 hf2 hf3 hclone hcfg
    rw [release_remote_run env (ChannelsArg.list xs) repo_name pkg_name version
      hv hclone hf1 hf2 hf3 hcfg]
    simp

/-- Witness for `c7_channel_order` at concrete extra channels. -/
theorem c7_channel_order_witness :
    channelStr (ChannelsArg.list ["ex1", "ex2"])
      = channelArgsString (["ex1", "ex2"] ++ ["defaults", "pslmodels"]) ∧
    Effect.osCall (buildCmd sampleEnv (ChannelsArg.list ["ex1", "ex2"])) false
      ∈ (release sampleEnv ⟨PyVal.str "Tax-Calculator", PyVal.str "taxcalc",
          PyVal.str "1.0.1", PyVal.bool false, PyVal.bool false,
          ChannelsArg.list ["ex1", "ex2"]⟩).1 := by
  have h := c7_channel_order sampleEnv ["ex1", "ex2"] "Tax-Calculator" "taxcalc" "1.0.1"
    (by decide)
  exact ⟨h.2.1, h.2.2.2 rfl rfl rfl rfl rfl⟩

/-- C8: in a local-mode run that reaches and passes the build step, the
procedure first runs the uninstall command with failures ignored (the
`ignoreError` flag on its event; no hypothesis about the uninstall
outcome appears anywhere below, so a failed uninstall changes nothing),
then runs the strict install command pinned to `<pkg_name>=<version>`;
a failing install is fatal (the run raises and cleanup is skipped),
while a successful install lets the run continue into cleanup and, if
the purge succeeds, finish normally. -/
theorem c8_local_install (env : Env) (chans : ChannelsArg)
    (repo_name pkg_name version : String)
    (hend : pyEndsWith env.cwd repo_name = true)
    (hdir : env.cwdIsdir (osPathJoin2 "." pkg_name) = true)
    (hv : pyMatchVersion version = true)
    (hcp : env.copytreeOk = true)
    (hf1 : env.fileRevisionOk (osPathJoin2 "conda.recipe" "meta.yaml") = true)
    (hf2 : env.fileRevisionOk "setup.py" = true)
    (hf3 : env.fileRevisionOk (osPathJoin2 pkg_name "__init__.py") = true)
    (hcfg : env.osCallOk "conda config --set anaconda_upload no" = true)
    (hb : env.osCallOk (buildCmd env chans) = true) :
    (∃ pre suf,
      (release env ⟨PyVal.str repo_name, PyVal.str pkg_name, PyVal.str version,
          PyVal.bool true, PyVal.bool false, chans⟩).1
        = pre ++ [Effect.print ": Package-Builder is uninstalling any existing package",
                  Effect.osCall (uninstallCmd pkg_name) true,
                  Effect.print ": Package-Builder is installing package on local computer",
                  Effect.osCall (installCmd env repo_name pkg_name version) false] ++ suf) ∧
    uninstallCmd pkg_name = "conda uninstall " ++ pkg_name ++ " --yes" ∧
    installCmd env repo_name pkg_name version
      = "conda install --channel " ++ pkgDir env repo_name ++ " " ++ pkg_name ++ "="
        ++ version ++ " --yes" ∧
    (env.osCallOk (installCmd env repo_name pkg_name version) = false →
      (release env ⟨PyVal.str repo_name, PyVal.str pkg_name, PyVal.str version,
          PyVal.bool true, PyVal.bool false, chans⟩).2
        = Except.error (PyExn.osCallError (installCmd env repo_name pkg_name version)) ∧
      Effect.osCall "conda build purge" false
        ∉ (release env ⟨PyVal.str repo_name, PyVal.str pkg_name, PyVal.str version,
            PyVal.bool true, PyVal.bool false, chans⟩).1) ∧
    (env.osCallOk (installCmd env repo_name pkg_name version) = true →
      Effect.osCall "conda build purge" false
        ∈ (release env ⟨PyVal.str repo_name, PyVal.str pkg_name, PyVal.str version,
            PyVal.bool true, PyVal.bool false, chans⟩).1 ∧
      (env.osCallOk "conda build purge" = true →
        (release env ⟨PyVal.str repo_name, PyVal.str pkg_name, PyVal.str version,
            PyVal.bool true, PyVal.bool false, chans⟩).2 = Except.ok ())) := by
  have hrl := release_local_run env chans repo_name pkg_name version
    hend hdir hv hcp hf1 hf2 hf3 hcfg
  have hpcn : ("conda build purge" : String) ≠ "conda config --set anaconda_upload no" := by
    decide
  have hpb := Ne.symm (buildCmd_ne_purge env chans)
  have hpi := Ne.symm (installCmd_ne_purge env repo_name pkg_name version)
  refine ⟨?_, rfl, rfl, ?_, ?_⟩
  · rw [hrl]
    refine ⟨localPreBuild env chans repo_name pkg_name version
        ++ [Effect.osCall (buildCmd env chans) false],
      (if env.osCallOk (installCmd env repo_name pkg_name version) then cleanupTrace env
       else []), ?_⟩
    simp [afterBuildLocal, hb, installTrace]
  · intro hi
    rw [hrl]
    constructor
    · simp [afterBuildLocalResult, hb, hi]
    · cases hwd : env.workingDirExists <;>
        simp [afterBuildLocal, hb, hi, installTrace, localPreBuild, planPrints,
          frEvt1, frEvt2, frEvt3, hwd, hpcn, hpb, hpi]
  · intro hi
    rw [hrl]
    constructor
    · simp [afterBuildLocal, hb, hi, installTrace, cleanupTrace]
    · intro hp
      simp [afterBuildLocalResult, hb, hi, cleanupResult, hp]

/-- Witness for `c8_local_install`: a fully successful concrete local
run contains the uninstall/install pair and finishes normally. -/
theorem c8_local_install_witness :
    (∃ pre suf,
      (release sampleEnv ⟨PyVal.str "Tax-Calculator", PyVal.str "taxcalc",
          PyVal.str "1.0.1", PyVal.bool true, PyVal.bool false, ChannelsArg.none⟩).1
        = pre ++ [Effect.print ": Package-Builder is uninstalling any existing package",
                  Effect.osCall (uninstallCmd "taxcalc") true,
                  Effect.print ": Package-Builder is installing package on local computer",
                  Effect.osCall (installCmd sampleEnv "Tax-Calculator" "taxcalc" "1.0.1")
                    false] ++ suf) ∧
    (release sampleEnv ⟨PyVal.str "Tax-Calculator", PyVal.str "taxcalc",
        PyVal.str "1.0.1", PyVal.bool true, PyVal.bool false, ChannelsArg.none⟩).2
      = Except.ok () := by
  have h := c8_local_install sampleEnv ChannelsArg.none "Tax-Calculator" "taxcalc" "1.0.1"
    (by decide) rfl (by decide) rfl rfl rfl rfl rfl rfl
  exact ⟨h.1, (h.2.2.2.2 rfl).2 rfl⟩

/-- C9: the install channel is computed as
`os.path.join('file://', WORKING_DIR, repo_name, 'pkgbld_output')`;
because `WORKING_DIR` is an absolute later component, the `'file://'`
component is discarded and the channel passed to `conda install` is the
bare absolute path `<WORKING_DIR>/<repo_name>/pkgbld_output` (it starts
with `/` and not with `file://`), and precisely this command is invoked
after a successful local-mode build. -/
theorem c9_install_channel_path (env : Env) (chans : ChannelsArg)
    (repo_name pkg_name version : String)
    (hh : startsWithSlash env.homeDir = true)
    (hr0 : repo_name.data ≠ [])
    (hr1 : startsWithSlash repo_name = false)
    (hr2 : endsWithSlash repo_name = false) :
    pkgDir env repo_name
      = workingDir env.homeDir ++ "/" ++ repo_name ++ "/" ++ "pkgbld_output" ∧
    startsWithSlash (pkgDir env repo_name) = true ∧
    pyStartsWith (pkgDir env repo_name) "file://" = false ∧
    installCmd env repo_name pkg_name version
      = "conda install --channel "
        ++ (workingDir env.homeDir ++ "/" ++ repo_name ++ "/" ++ "pkgbld_output")
        ++ " " ++ pkg_name ++ "=" ++ version ++ " --yes" ∧
    (pyEndsWith env.cwd repo_name = true →
     env.cwdIsdir (osPathJoin2 "." pkg_name) = true →
     pyMatchVersion version = true →
     env.copytreeOk = true →
     env.fileRevisionOk (osPathJoin2 "conda.recipe" "meta.yaml") = true →
     env.fileRevisionOk "setup.py" = true →
     env.fileRevisionOk (osPathJoin2 pkg_name "__init__.py") = true →
     env.osCallOk "conda config --set anaconda_upload no" = true →
     env.osCallOk (buildCmd env chans) = true →
      Effect.osCall (installCmd env repo_name pkg_name version) false
        ∈ (release env ⟨PyVal.str repo_name, PyVal.str pkg_name, PyVal.str version,
            PyVal.bool true, PyVal.bool false, chans⟩).1) := by
  have hpd := pkgDir_eq env repo_name hh hr0 hr1 hr2
  have hs : startsWithSlash (pkgDir env repo_name) = true := by
    rw [hpd]
    exact startsWithSlash_append _ _ (startsWithSlash_append _ _
      (startsWithSlash_append _ _ (startsWithSlash_append _ _
        (workingDir_facts env.homeDir hh).1)))
  refine ⟨hpd, hs, pyStartsWith_file_of_slash _ hs, by rw [installCmd, hpd], ?_⟩
  intro hend hdir hv hcp hf1 hf2 hf3 hcfg hb
  rw [release_local_run env chans repo_name pkg_name version hend hdir hv hcp hf1 hf2 hf3 hcfg]
  simp [afterBuildLocal, hb, installTrace]

/-- Witness for `c9_install_channel_path` at the concrete home
directory `/root` and repository `Tax-Calculator`. -/
theorem c9_install_channel_path_witness :
    pkgDir sampleEnv "Tax-Calculator"
      = workingDir sampleEnv.homeDir ++ "/" ++ "Tax-Calculator" ++ "/" ++ "pkgbld_output" ∧
    pyStartsWith (pkgDir sampleEnv "Tax-Calculator") "file://" = false ∧
    Effect.osCall (installCmd sampleEnv "Tax-Calculator" "taxcalc" "1.0.1") false
      ∈ (release sampleEnv ⟨PyVal.str "Tax-Calculator", PyVal.str "taxcalc",
          PyVal.str "1.0.1", PyVal.bool true, PyVal.bool false, ChannelsArg.none⟩).1 := by
  have h := c9_install_channel_path sampleEnv ChannelsArg.none "Tax-Calculator" "taxcalc"
    "1.0.1" (by decide) (by decide) (by decide) (by decide)
  exact ⟨h.1, h.2.2.1, h.2.2.2.2 (by decide) rfl (by decide) rfl rfl rfl rfl rfl rfl⟩

/-- C10: validation never inspects `channels` — the outcome of the
parameter checks is identical for any two `channels` values, and with
the other parameters valid the checks pass whatever `channels` is; the
build command contains one ` --channel` fragment per element obtained
by iterating `channels`, so a plain string contributes one
single-character channel per character of the string, and exactly that
build command is invoked. -/
theorem c10_channels_unvalidated (env : Env) (a : Args) (c1 c2 : ChannelsArg) (s : String)
    (repo_name pkg_name version : String) (lcl dr : Bool)
    (hl : lcl = true →
      pyEndsWith env.cwd repo_name = true
        ∧ env.cwdIsdir (osPathJoin2 "." pkg_name) = true)
    (hv : pyMatchVersion version = true) :
    checkParams env { a with channels := c1 } = checkParams env { a with channels := c2 } ∧
    (∃ out, checkParams env ⟨PyVal.str repo_name, PyVal.str pkg_name, PyVal.str version,
        PyVal.bool lcl, PyVal.bool dr, ChannelsArg.str s⟩ = Except.ok out) ∧
    channelIter (ChannelsArg.str s) = s.data.map (fun ch => String.singleton ch) ∧
    (channelIter (ChannelsArg.str s)).length = s.length ∧
    channelStr (ChannelsArg.str s)
      = channelArgsString ((s.data.map fun ch => String.singleton ch)
          ++ ["defaults", "pslmodels"]) ∧
    (env.fileRevisionOk (osPathJoin2 "conda.recipe" "meta.yaml") = true →
     env.fileRevisionOk "setup.py" = true →
     env.fileRevisionOk (osPathJoin2 pkg_name "__init__.py") = true →
     env.osCallOk (gitCloneCmd version repo_name) = true →
     env.osCallOk "conda config --set anaconda_upload yes" = true →
      Effect.osCall (buildCmd env (ChannelsArg.str s)) false
        ∈ (release env ⟨PyVal.str repo_name, PyVal.str pkg_name, PyVal.str version,
            PyVal.bool false, PyVal.bool false, ChannelsArg.str s⟩).1) := by
  refine ⟨?_, ?_, rfl, ?_, ?_, ?_⟩
  · cases a with
    | mk rv pv vv lv dv ch => rfl
  · cases lcl with
    | false =>
        exact ⟨(repo_name, pkg_name, version, false, dr),
          by simp [checkParams, PyVal.asStr, PyVal.asBool, hv]⟩
    | true =>
        obtain ⟨hend, hdir⟩ := hl rfl
        exact ⟨(repo_name, pkg_name, version, true, dr),
          by simp [checkParams, PyVal.asStr, PyVal.asBool, hv, hend, hdir]⟩
  · simp [channelIter]
  · have h := channelStr_eq (ChannelsArg.str s)
    simpa [channelIter, ANACONDA_CHANNEL, ANACONDA_USER] using h
  · intro hf1 hf2 hf3 hclone hcfg
    rw [release_remote_run env (ChannelsArg.str s) repo_name pkg_name version
      hv hclone hf1 hf2 hf3 hcfg]
    simp

/-- Witness for `c10_channels_unvalidated`: the plain string `"abc"`
passes validation untouched and contributes the three one-character
channels `a`, `b`, `c`. -/
theorem c10_channels_unvalidated_witness :
    (∃ out, checkParams sampleEnv ⟨PyVal.str "Tax-Calculator", PyVal.str "taxcalc",
        PyVal.str "1.0.1", PyVal.bool false, PyVal.bool false, ChannelsArg.str "abc"⟩
      = Except.ok out) ∧
    channelStr (ChannelsArg.str "abc")
      = channelArgsString ["a", "b", "c", "defaults", "pslmodels"] ∧
    Effect.osCall (buildCmd sampleEnv (ChannelsArg.str "abc")) false
      ∈ (release sampleEnv ⟨PyVal.str "Tax-Calculator", PyVal.str "taxcalc",
          PyVal.str "1.0.1", PyVal.bool false, PyVal.bool false, ChannelsArg.str "abc"⟩).1 := by
  have h := c10_channels_unvalidated sampleEnv
    ⟨PyVal.str "Tax-Calculator", PyVal.str "taxcalc", PyVal.str "1.0.1",
      PyVal.bool false, PyVal.bool false, ChannelsArg.none⟩
    ChannelsArg.none (ChannelsArg.list ["x"]) "abc" "Tax-Calculator" "taxcalc" "1.0.1"
    false false (by intro hc; exact absurd hc (by decide)) (by decide)
  refine ⟨h.2.1, ?_, h.2.2.2.2.2 rfl rfl rfl rfl rfl⟩
  have h5 := h.2.2.2.2.1
  simpa using h5
